import Mathlib

/-!
Shallow embedding of `src/pytorch/models/darknet.py` (DarkNet for image
classification) and verification of its natural-language specification.

The embedding mirrors the source module by module:
* `Conv2dCfg` records the constructor arguments of an `nn.Conv2d` layer
  (weight shape and bias presence are what the claims need);
* `DarkConv` is the conv + batch-norm + leaky-ReLU block (the activation
  holds no parameters and preserves shape, so only the conv configuration
  and the batch-norm feature count are carried);
* `Stage` is a list of `DarkConv` units plus an optional trailing max pool;
* `DarkNet` is the full network: feature stages, the final 1x1 convolution
  (with bias, PyTorch default), the optional final activation and the
  average-pool kernel size;
* `get_darknet` is the variant factory with its two error paths.
-/

namespace DarknetModel

/-- Constructor arguments of an `nn.Conv2d` layer, as passed in the source. -/
structure Conv2dCfg where
  in_channels : Nat
  out_channels : Nat
  kernel_size : Nat
  padding : Nat
  bias : Bool
deriving DecidableEq

/-- The `DarkConv` block of the source: a bias-free convolution followed by
`BatchNorm2d(out_channels)` and `LeakyReLU(0.1)`.  The activation holds no
parameters, so the block is determined by the conv configuration and the
batch-norm feature count. -/
structure DarkConv where
  conv : Conv2dCfg
  bn : Nat
deriving DecidableEq

/-- `DarkConv.__init__`: conv with the given kernel/padding, `bias=False`,
batch norm over `out_channels`. -/
def darkConvMk (in_channels out_channels kernel_size padding : Nat) : DarkConv :=
  { conv := { in_channels := in_channels, out_channels := out_channels,
              kernel_size := kernel_size, padding := padding, bias := false },
    bn := out_channels }

/-- `dark_conv1x1` of the source: kernel 1, padding 0. -/
def dark_conv1x1 (in_channels out_channels : Nat) : DarkConv :=
  darkConvMk in_channels out_channels 1 0

/-- `dark_conv3x3` of the source: kernel 3, padding 1. -/
def dark_conv3x3 (in_channels out_channels : Nat) : DarkConv :=
  darkConvMk in_channels out_channels 3 1

/-- `dark_convYxY` of the source: pointwise selects the 1x1 block, otherwise
the 3x3 block. -/
def dark_convYxY (in_channels out_channels : Nat) (pointwise : Bool) : DarkConv :=
  if pointwise then dark_conv1x1 in_channels out_channels
  else dark_conv3x3 in_channels out_channels

/-- The pointwise flag computed in the stage loop of `DarkNet.__init__`
(source line 89), with `n = len(channels_per_stage)` and `j` the 0-based
`enumerate` index: `(n > 1) and not (((j + 1) % 2 == 1) ^ odd_pointwise)`. -/
def unitPointwise (n j : Nat) (odd_pointwise : Bool) : Bool :=
  decide (n > 1) && !(decide ((j + 1) % 2 = 1) ^^ odd_pointwise)

/-- The inner loop of `DarkNet.__init__` over one stage: `n` is the length of
`channels_per_stage` captured by the loop condition, `j` the running
`enumerate` index, and `in_channels` is threaded through the units. -/
def stageUnitsAux (odd_pointwise : Bool) (n : Nat) :
    Nat → Nat → List Nat → List DarkConv
  | _, _, [] => []
  | j, in_channels, out_channels :: rest =>
      dark_convYxY in_channels out_channels (unitPointwise n j odd_pointwise) ::
        stageUnitsAux odd_pointwise n (j + 1) out_channels rest

/-- The units of one stage built from `in_channels` and the stage's
output-channel list. -/
def stageUnits (in_channels : Nat) (channels_per_stage : List Nat)
    (odd_pointwise : Bool) : List DarkConv :=
  stageUnitsAux odd_pointwise channels_per_stage.length 0 in_channels channels_per_stage

/-- A max-pool (or, in the classifier head, average-pool) configuration. -/
structure PoolCfg where
  kernel_size : Nat
  stride : Nat
deriving DecidableEq

/-- One stage of the `features` sequence: the units, then an optional
trailing `MaxPool2d(kernel_size=2, stride=2)`. -/
structure Stage where
  units : List DarkConv
  pool : Option PoolCfg
deriving DecidableEq

/-- The value of `in_channels` after a stage's loop: the stage's last
output-channel count, or the incoming value for an empty list. -/
def stageOutChannels (in_channels : Nat) (channels_per_stage : List Nat) : Nat :=
  channels_per_stage.foldl (fun _ out_channels => out_channels) in_channels

/-- The outer loop of `DarkNet.__init__` over stages: `num_stages` is
`len(channels)`, `i` the running stage index, `in_channels` threaded through.
A `MaxPool2d(2, 2)` is appended unless `i == len(channels) - 1`. -/
def featuresAux (odd_pointwise : Bool) (num_stages : Nat) :
    Nat → Nat → List (List Nat) → List Stage
  | _, _, [] => []
  | i, in_channels, channels_per_stage :: rest =>
      { units := stageUnits in_channels channels_per_stage odd_pointwise,
        pool := if i = num_stages - 1 then none
                else some { kernel_size := 2, stride := 2 } } ::
        featuresAux odd_pointwise num_stages (i + 1)
          (stageOutChannels in_channels channels_per_stage) rest

/-- `in_channels` after all stages: threaded through every stage in order. -/
def threadChannels (in_channels : Nat) (channels : List (List Nat)) : Nat :=
  channels.foldl stageOutChannels in_channels

/-- The assembled network: feature stages, then the classifier head
(`final_conv`, optional `final_activ`, `final_pool` of stride 1). -/
structure DarkNet where
  stages : List Stage
  final_conv : Conv2dCfg
  final_activ : Bool
  final_pool_size : Nat
deriving DecidableEq

/-- `DarkNet.__init__`: build the stages, then the classifier head whose
input channel count is the threaded `in_channels`; the final conv is a 1x1
`nn.Conv2d` with the PyTorch defaults `padding=0`, `bias=True`. -/
def DarkNet.init (channels : List (List Nat)) (odd_pointwise : Bool)
    (avg_pool_size : Nat) (cls_activ : Bool)
    (in_channels num_classes : Nat) : DarkNet :=
  { stages := featuresAux odd_pointwise channels.length 0 in_channels channels,
    final_conv := { in_channels := threadChannels in_channels channels,
                    out_channels := num_classes, kernel_size := 1,
                    padding := 0, bias := true },
    final_activ := cls_activ,
    final_pool_size := avg_pool_size }

/-- The version dispatch at the top of `get_darknet`: each recognized name
yields `(channels, odd_pointwise, avg_pool_size, cls_activ)`; any other name
raises `ValueError("Unsupported DarkNet version ...")`. -/
def darknetVersionCfg (version : String) :
    Except String (List (List Nat) × Bool × Nat × Bool) :=
  if version = "ref" then
    Except.ok ([[16], [32], [64], [128], [256], [512], [1024]], false, 3, true)
  else if version = "tiny" then
    Except.ok ([[16], [32], [16, 128, 16, 128], [32, 256, 32, 256],
      [64, 512, 64, 512, 128]], true, 14, false)
  else if version = "19" then
    Except.ok ([[32], [64], [128, 64, 128], [256, 128, 256],
      [512, 256, 512, 256, 512], [1024, 512, 1024, 512, 1024]], false, 7, false)
  else
    Except.error ("Unsupported DarkNet version " ++ version)

/-- `get_darknet`: version dispatch first (raising on an unknown name), then
the unconditional `ValueError` on `pretrained`, then construction. -/
def get_darknet (version : String) (pretrained : Bool)
    (in_channels num_classes : Nat) : Except String DarkNet :=
  match darknetVersionCfg version with
  | Except.error e => Except.error e
  | Except.ok (channels, odd_pointwise, avg_pool_size, cls_activ) =>
      if pretrained then Except.error "Pretrained model is not supported"
      else Except.ok
        (DarkNet.init channels odd_pointwise avg_pool_size cls_activ
          in_channels num_classes)

/-- `darknet_ref` of the source (with the construction keyword arguments
`in_channels`, `num_classes` passed explicitly). -/
def darknet_ref (pretrained : Bool) (in_channels num_classes : Nat) :
    Except String DarkNet :=
  get_darknet "ref" pretrained in_channels num_classes

/-- `darknet_tiny` of the source. -/
def darknet_tiny (pretrained : Bool) (in_channels num_classes : Nat) :
    Except String DarkNet :=
  get_darknet "tiny" pretrained in_channels num_classes

/-- `darknet19` of the source. -/
def darknet19 (pretrained : Bool) (in_channels num_classes : Nat) :
    Except String DarkNet :=
  get_darknet "19" pretrained in_channels num_classes

/-! ### Trainable parameter counting

The `_test` function of the source counts `np.prod(param.size())` over all
parameters with `requires_grad`.  A conv layer contributes
`out_channels * in_channels * k * k` weight entries plus `out_channels` bias
entries when it has a bias; `BatchNorm2d` contributes its affine weight and
bias, `2 * num_features` (the running statistics are buffers, not
parameters); pooling and activation layers hold no parameters. -/

/-- Trainable parameters of one `nn.Conv2d`. -/
def Conv2dCfg.num_params (c : Conv2dCfg) : Nat :=
  c.out_channels * c.in_channels * c.kernel_size * c.kernel_size +
    (if c.bias then c.out_channels else 0)

/-- Trainable parameters of one `DarkConv` block (conv weight plus the
batch-norm affine weight and bias). -/
def DarkConv.num_params (u : DarkConv) : Nat :=
  u.conv.num_params + 2 * u.bn

/-- Trainable parameters of one stage (its pool holds none). -/
def Stage.num_params (s : Stage) : Nat :=
  (s.units.map DarkConv.num_params).sum

/-- Trainable parameters of the whole network. -/
def DarkNet.num_params (net : DarkNet) : Nat :=
  (net.stages.map Stage.num_params).sum + net.final_conv.num_params

/-! ### The parameter-initialization pass

`DarkNet._init_params` iterates `named_modules()` and touches every
`nn.Conv2d`: `init.normal_(weight, mean=0.0, std=0.01)` when the module name
contains the substring `'final_conv'`, `init.kaiming_uniform_(weight)` (the
PyTorch default, fan-in based) otherwise, and `init.constant_(bias, 0)` when
a bias is present.  The embedding reproduces the `named_modules` names of the
conv layers (`features.stage{i+1}.unit{j+1}.conv` and `output.final_conv`)
and records which initializer is applied to each weight and bias. -/

/-- The symbolic initializers applied by `_init_params`. -/
inductive InitKind where
  | normalMean0Std001
  | kaimingUniform
  | constant0
deriving DecidableEq

/-- Does the character list start with the pattern? -/
def charsMatchAt : List Char → List Char → Bool
  | _, [] => true
  | [], _ :: _ => false
  | c :: cs, p :: ps => (c == p) && charsMatchAt cs ps

/-- Does the pattern occur anywhere in the character list? -/
def charsContains (pat : List Char) : List Char → Bool
  | [] => charsMatchAt [] pat
  | c :: cs => charsMatchAt (c :: cs) pat || charsContains pat cs

/-- Python's `pat in s` substring test. -/
def strContains (s pat : String) : Bool :=
  charsContains pat.data s.data

/-- The `named_modules()` names and configurations of every `nn.Conv2d` in
the network, in registration order: each unit's inner conv is named
`features.stage{i+1}.unit{j+1}.conv`, the head's conv is
`output.final_conv`. -/
def DarkNet.namedConvs (net : DarkNet) : List (String × Conv2dCfg) :=
  (net.stages.enum.flatMap fun istage =>
    istage.2.units.enum.map fun junit =>
      ("features.stage" ++ toString (istage.1 + 1) ++ ".unit" ++
        toString (junit.1 + 1) ++ ".conv", junit.2.conv)) ++
    [("output.final_conv", net.final_conv)]

/-- The initialization applied to one named conv: the weight initializer and
the bias initializer (none when the conv has no bias). -/
structure ConvInitRecord where
  name : String
  weight : InitKind
  bias : Option InitKind
deriving DecidableEq

/-- `DarkNet._init_params` as a record of what is applied where: normal
initialization when `'final_conv' in name`, Kaiming uniform otherwise,
constant 0 for every present bias. -/
def initParams (net : DarkNet) : List ConvInitRecord :=
  net.namedConvs.map fun p =>
    { name := p.1,
      weight := if strContains p.1 "final_conv" then InitKind.normalMean0Std001
                else InitKind.kaimingUniform,
      bias := if p.2.bias then some InitKind.constant0 else none }

/-! ### Shape semantics of `forward`

Shapes are threaded as `(channels, height, width)` for a single batch
element.  A convolution of stride 1 maps height `h` to `h + 2p - k + 1` and
requires the input channel count to match and the output extent to be
positive; `BatchNorm2d` and `LeakyReLU` preserve the shape (the batch norm
requires its feature count to match); pooling in PyTorch's default floor
mode maps `h` to `(h - k) / s + 1` and requires `k ≤ h`.  `Option` models
the shape errors the tensor engine raises during `forward`. -/

/-- A `(channels, height, width)` shape of one batch element. -/
structure TensorShape where
  channels : Nat
  height : Nat
  width : Nat
deriving DecidableEq

/-- Output shape of an `nn.Conv2d` with stride 1. -/
def Conv2dCfg.outShape (c : Conv2dCfg) (s : TensorShape) : Option TensorShape :=
  if s.channels = c.in_channels ∧ c.kernel_size ≤ s.height + 2 * c.padding ∧
      c.kernel_size ≤ s.width + 2 * c.padding then
    some { channels := c.out_channels,
           height := s.height + 2 * c.padding - c.kernel_size + 1,
           width := s.width + 2 * c.padding - c.kernel_size + 1 }
  else none

/-- Output shape of a pooling layer in floor mode. -/
def poolOutShape (kernel_size stride : Nat) (s : TensorShape) :
    Option TensorShape :=
  if kernel_size ≤ s.height ∧ kernel_size ≤ s.width ∧ 0 < stride then
    some { channels := s.channels,
           height := (s.height - kernel_size) / stride + 1,
           width := (s.width - kernel_size) / stride + 1 }
  else none

/-- Shape through one `DarkConv` block: the conv, then the batch norm (which
checks its feature count and preserves the shape), then the activation. -/
def DarkConv.outShape (u : DarkConv) (s : TensorShape) : Option TensorShape :=
  match u.conv.outShape s with
  | none => none
  | some s1 => if s1.channels = u.bn then some s1 else none

/-- Shape through one stage: all units in order, then the optional pool. -/
def Stage.outShape (st : Stage) (s : TensorShape) : Option TensorShape :=
  match st.units.foldlM (fun acc u => u.outShape acc) s with
  | none => none
  | some s1 =>
      match st.pool with
      | none => some s1
      | some p => poolOutShape p.kernel_size p.stride s1

/-- Shape after `self.features`. -/
def DarkNet.featuresShape (net : DarkNet) (s : TensorShape) : Option TensorShape :=
  net.stages.foldlM (fun acc st => st.outShape acc) s

/-- `forward`: features, then the classifier head (final conv, shape-neutral
optional activation, average pool of stride 1), then
`x.view(x.size(0), -1)`; the result is the flattened per-element length. -/
def DarkNet.forwardFlatSize (net : DarkNet) (s : TensorShape) : Option Nat :=
  match net.featuresShape s with
  | none => none
  | some f =>
      match net.final_conv.outShape f with
      | none => none
      | some c =>
          match poolOutShape net.final_pool_size 1 c with
          | none => none
          | some p => some (p.channels * p.height * p.width)

/-! ### Helper lemmas about the stage builders -/

/-- The kernel size and padding selected by `dark_convYxY`. -/
theorem dark_convYxY_kernel_pad (in_channels out_channels : Nat) (p : Bool) :
    ((dark_convYxY in_channels out_channels p).conv.kernel_size,
      (dark_convYxY in_channels out_channels p).conv.padding) =
      if p then (1, 0) else (3, 1) := by
  cases p <;> rfl

/-- The kernel/padding choices of a stage's units, indexed by the loop
counter: unit `k` of `stageUnitsAux` starting at counter `j` is pointwise
exactly when `unitPointwise n (j + k)` holds. -/
theorem stageUnitsAux_kernels (odd_pointwise : Bool) (n : Nat) :
    ∀ (cps : List Nat) (j in_channels : Nat),
      (stageUnitsAux odd_pointwise n j in_channels cps).map
          (fun u => (u.conv.kernel_size, u.conv.padding)) =
        (List.range cps.length).map
          (fun k => if unitPointwise n (j + k) odd_pointwise then (1, 0) else (3, 1)) := by
  intro cps
  induction cps with
  | nil => intro j inC; rfl
  | cons c rest ih =>
      intro j inC
      rw [stageUnitsAux, List.map_cons, ih (j + 1) c, List.length_cons,
        List.range_succ_eq_map, List.map_cons, List.map_map]
      rw [dark_convYxY_kernel_pad, Nat.add_zero]
      refine congrArg (List.cons _) (List.map_congr_left ?_)
      intro k _
      simp only [Function.comp_apply, Nat.succ_eq_add_one]
      have hadd : j + 1 + k = j + (k + 1) := by omega
      rw [hadd]

/-- The kernel/padding choices of `stageUnits` (loop counter starts at 0). -/
theorem stageUnits_kernels (in_channels : Nat) (cps : List Nat)
    (odd_pointwise : Bool) :
    (stageUnits in_channels cps odd_pointwise).map
        (fun u => (u.conv.kernel_size, u.conv.padding)) =
      (List.range cps.length).map
        (fun k => if unitPointwise cps.length k odd_pointwise then (1, 0) else (3, 1)) := by
  rw [stageUnits, stageUnitsAux_kernels]
  refine List.map_congr_left ?_
  intro k _
  rw [Nat.zero_add]

/-- The trailing pools of `featuresAux`, indexed by the loop counter. -/
theorem featuresAux_pools (odd_pointwise : Bool) (num_stages : Nat) :
    ∀ (channels : List (List Nat)) (i in_channels : Nat),
      (featuresAux odd_pointwise num_stages i in_channels channels).map Stage.pool =
        (List.range channels.length).map
          (fun k => if i + k = num_stages - 1 then none
                    else some { kernel_size := 2, stride := 2 }) := by
  intro channels
  induction channels with
  | nil => intro i inC; rfl
  | cons cps rest ih =>
      intro i inC
      rw [featuresAux, List.map_cons, ih (i + 1) (stageOutChannels inC cps),
        List.length_cons, List.range_succ_eq_map, List.map_cons, List.map_map]
      rw [Nat.add_zero]
      refine congrArg (List.cons _) (List.map_congr_left ?_)
      intro k _
      simp only [Function.comp_apply, Nat.succ_eq_add_one]
      have hadd : i + 1 + k = i + (k + 1) := by omega
      rw [hadd]

/-- `featuresAux` builds one stage per channel list. -/
theorem featuresAux_length (odd_pointwise : Bool) (num_stages : Nat) :
    ∀ (channels : List (List Nat)) (i in_channels : Nat),
      (featuresAux odd_pointwise num_stages i in_channels channels).length =
        channels.length := by
  intro channels
  induction channels with
  | nil => intro i inC; rfl
  | cons cps rest ih =>
      intro i inC
      rw [featuresAux, List.length_cons, ih (i + 1) (stageOutChannels inC cps),
        List.length_cons]

/-- Element of a mapped `List.range` at an in-range index. -/
theorem getD_range_map {α : Type} (f : Nat → α) (n idx : Nat) (d : α)
    (h : idx < n) :
    ((List.range n).map f).getD idx d = f idx := by
  rw [List.getD_eq_getElem?_getD, List.getElem?_map, List.getElem?_range h]
  rfl

/-- The kernel/padding pattern stated by the amended alternation sentence:
position `k` (0-based, so unit `k + 1`) is pointwise exactly when the parity
bit `k % 2 = 0` (unit number odd) equals `odd_pointwise`; so with
`odd_pointwise = false` the stage starts spatial and with
`odd_pointwise = true` it starts pointwise. -/
def kernelPattern (odd_pointwise : Bool) (n : Nat) : List (Nat × Nat) :=
  (List.range n).map fun k =>
    if (decide (k % 2 = 0)) == odd_pointwise then (1, 0) else (3, 1)

/-! ### The claims -/

/-- C1, counterexample: the claim that every unit of a length-1 stage is
built with the pointwise 1x1 kernel is false on the code: the single unit of
the stage with channel list `[16]` (the first stage of every variant) has
kernel size 3, for either value of `odd_pointwise`. -/
theorem singleton_stage_pointwise_claim_refuted :
    ¬ (∀ u ∈ stageUnits 3 [16] false, u.conv.kernel_size = 1) ∧
    ¬ (∀ u ∈ stageUnits 3 [16] true, u.conv.kernel_size = 1) := by
  decide

/-- C1, amended: for every stage whose output-channel list has length 1, the
constituent unit is built with the spatial 3x3 kernel (padding 1), regardless
of `odd_pointwise` (the guard `len(channels_per_stage) > 1` of source line 89
makes `pointwise` false). -/
theorem singleton_stage_units_spatial (in_channels : Nat) (cps : List Nat)
    (odd_pointwise : Bool) (h : cps.length = 1) :
    (stageUnits in_channels cps odd_pointwise).map
        (fun u => (u.conv.kernel_size, u.conv.padding)) = [(3, 1)] := by
  rw [stageUnits_kernels, h]
  rfl

/-- C1, witness for the amended theorem at the concrete stage `[16]`. -/
theorem singleton_stage_units_spatial_witness :
    (stageUnits 3 [16] true).map
        (fun u => (u.conv.kernel_size, u.conv.padding)) = [(3, 1)] :=
  singleton_stage_units_spatial 3 [16] true rfl

/-- C2, counterexample: on the stage `[128, 64, 128]` of the 19-layer
variant with `odd_pointwise = false`, the kernel sizes are `[3, 1, 3]`, not
the `[1, 3, 1]` the claim predicts (unit 1 is spatial, not pointwise). -/
theorem alternation_start_claim_refuted :
    (((stageUnits 64 [128, 64, 128] false).map fun u => u.conv.kernel_size) =
      [3, 1, 3]) ∧
    ¬ (((stageUnits 64 [128, 64, 128] false).map fun u => u.conv.kernel_size) =
      [1, 3, 1]) := by
  decide

/-- C2, amended: for every stage with channel list length > 1, the units
alternate starting SPATIAL when `odd_pointwise = false` (unit 1 spatial 3x3,
unit 2 pointwise 1x1, ...) and starting POINTWISE when
`odd_pointwise = true`, as captured by `kernelPattern`. -/
theorem multi_stage_kernel_alternation (in_channels : Nat) (cps : List Nat)
    (odd_pointwise : Bool) (hn : 1 < cps.length) :
    (stageUnits in_channels cps odd_pointwise).map
        (fun u => (u.conv.kernel_size, u.conv.padding)) =
      kernelPattern odd_pointwise cps.length := by
  rw [stageUnits_kernels, kernelPattern]
  refine List.map_congr_left ?_
  intro k _
  rcases Nat.mod_two_eq_zero_or_one k with h0 | h0
  · have h1 : (k + 1) % 2 = 1 := by omega
    cases odd_pointwise <;> simp [unitPointwise, hn, h0, h1]
  · have h1 : ¬ ((k + 1) % 2 = 1) := by omega
    have h2 : ¬ (k % 2 = 0) := by omega
    cases odd_pointwise <;> simp [unitPointwise, hn, h1, h2]

/-- C2, witness for the amended theorem at the stage `[128, 64, 128]` with
`odd_pointwise = false`. -/
theorem multi_stage_kernel_alternation_witness :
    (stageUnits 64 [128, 64, 128] false).map
        (fun u => (u.conv.kernel_size, u.conv.padding)) =
      kernelPattern false 3 :=
  multi_stage_kernel_alternation 64 [128, 64, 128] false (by decide)

/-- C3: for every stage with channel list length > 1, unit `idx + 1`
(1-indexed) is built with the pointwise 1x1 kernel (padding 0) exactly when
`((idx + 1) is odd) XOR odd_pointwise` is false, and with the spatial 3x3
kernel (padding 1) otherwise. -/
theorem multi_stage_unit_kernel_xor (in_channels : Nat) (cps : List Nat)
    (odd_pointwise : Bool) (hn : 1 < cps.length)
    (idx : Nat) (hidx : idx < cps.length) :
    ((stageUnits in_channels cps odd_pointwise).map
        (fun u => (u.conv.kernel_size, u.conv.padding))).getD idx (0, 0) =
      (if (decide ((idx + 1) % 2 = 1) ^^ odd_pointwise) = false then (1, 0)
       else (3, 1)) := by
  rw [stageUnits_kernels, getD_range_map _ _ _ _ hidx]
  rcases Nat.mod_two_eq_zero_or_one idx with h0 | h0
  · have h1 : (idx + 1) % 2 = 1 := by omega
    cases odd_pointwise <;> simp [unitPointwise, hn, h1]
  · have h1 : ¬ ((idx + 1) % 2 = 1) := by omega
    cases odd_pointwise <;> simp [unitPointwise, hn, h1]

/-- C3, witness at unit 2 of the stage `[128, 64, 128]` with
`odd_pointwise = false`: unit 2 is even, XOR is false, so pointwise. -/
theorem multi_stage_unit_kernel_xor_witness :
    ((stageUnits 64 [128, 64, 128] false).map
        (fun u => (u.conv.kernel_size, u.conv.padding))).getD 1 (0, 0) =
      (if (decide ((1 + 1) % 2 = 1) ^^ false) = false then (1, 0)
       else (3, 1)) :=
  multi_stage_unit_kernel_xor 64 [128, 64, 128] false (by decide) 1 (by decide)

/-- C4: the trainable parameter counts of the three variants, built with the
default `in_channels = 3` and `num_classes = 1000`, are exactly the values
asserted by the source's `_test`. -/
theorem variant_param_counts :
    Except.map DarkNet.num_params (darknet_ref false 3 1000) =
      Except.ok 7319416 ∧
    Except.map DarkNet.num_params (darknet_tiny false 3 1000) =
      Except.ok 1042104 ∧
    Except.map DarkNet.num_params (darknet19 false 3 1000) =
      Except.ok 20842376 :=
  ⟨rfl, rfl, rfl⟩

/-- C5: `get_darknet` produces an error exactly when the version is not one
of `ref`, `tiny`, `19` or pretrained weights are requested; and whenever it
succeeds, the result is the fully assembled `DarkNet.init` of the version's
configuration (nothing partial is ever returned: the error paths precede
construction). -/
theorem get_darknet_error_iff (version : String) (pretrained : Bool)
    (in_channels num_classes : Nat) :
    ((∃ msg, get_darknet version pretrained in_channels num_classes =
        Except.error msg) ↔
      (¬ (version = "ref" ∨ version = "tiny" ∨ version = "19") ∨
        pretrained = true)) ∧
    (∀ net, get_darknet version pretrained in_channels num_classes =
        Except.ok net →
      ∃ cfg, darknetVersionCfg version = Except.ok cfg ∧
        net = DarkNet.init cfg.1 cfg.2.1 cfg.2.2.1 cfg.2.2.2
          in_channels num_classes) := by
  by_cases h1 : version = "ref" <;> by_cases h2 : version = "tiny" <;>
    by_cases h3 : version = "19" <;> cases pretrained <;>
      simp [get_darknet, darknetVersionCfg, h1, h2, h3]

/-- C5, witness: the unknown version `bogus` yields an error. -/
theorem get_darknet_error_iff_witness :
    ∃ msg, get_darknet "bogus" false 3 1000 = Except.error msg :=
  (get_darknet_error_iff "bogus" false 3 1000).1.mpr (by decide)

/-- C6: the network built from any configuration has one stage per channel
list, every stage except the last carries the trailing
`MaxPool2d(kernel_size=2, stride=2)` (appended after all its units: `pool`
follows `units` in `Stage`), and the final stage carries none. -/
theorem stage_trailing_pools (channels : List (List Nat))
    (odd_pointwise : Bool) (avg_pool_size : Nat) (cls_activ : Bool)
    (in_channels num_classes : Nat) (idx : Nat)
    (hidx : idx < channels.length) :
    (DarkNet.init channels odd_pointwise avg_pool_size cls_activ in_channels
        num_classes).stages.length = channels.length ∧
    ((DarkNet.init channels odd_pointwise avg_pool_size cls_activ in_channels
        num_classes).stages.map Stage.pool).getD idx none =
      (if idx = channels.length - 1 then none
       else some { kernel_size := 2, stride := 2 }) := by
  constructor
  · exact featuresAux_length odd_pointwise channels.length channels 0 in_channels
  · show ((featuresAux odd_pointwise channels.length 0 in_channels
        channels).map Stage.pool).getD idx none = _
    rw [featuresAux_pools, getD_range_map _ _ _ _ hidx, Nat.zero_add]

/-- C6, witness on a two-stage configuration: stage 1 has the pool, stage 2
(the last) has none. -/
theorem stage_trailing_pools_witness :
    (DarkNet.init [[16], [32]] false 3 true 3 1000).stages.length =
      ([[16], [32]] : List (List Nat)).length ∧
    ((DarkNet.init [[16], [32]] false 3 true 3 1000).stages.map
        Stage.pool).getD 0 none =
      (if 0 = ([[16], [32]] : List (List Nat)).length - 1 then none
       else some { kernel_size := 2, stride := 2 }) :=
  stage_trailing_pools [[16], [32]] false 3 true 3 1000 0 (by decide)

/-- The initialization the spec sentence describes, keyed by literal name
equality with the classifier head's conv (`output.final_conv`) rather than
by the source's substring test: normal(0, 0.01) for exactly that weight,
Kaiming uniform for every other conv weight, constant 0 for every present
bias. -/
def initPolicySpec (net : DarkNet) : List ConvInitRecord :=
  net.namedConvs.map fun p =>
    { name := p.1,
      weight := if p.1 = "output.final_conv" then InitKind.normalMean0Std001
                else InitKind.kaimingUniform,
      bias := if p.2.bias then some InitKind.constant0 else none }

/-- C7: on each of the three variants, the source's initialization pass
(substring match on `final_conv`) coincides with the spec's policy (normal
initialization on exactly the classifier head's conv weight, Kaiming uniform
on every other conv weight, constant 0 on every present bias); moreover the
only conv carrying a bias is the classifier head's. -/
theorem init_policy_exact :
    Except.map initParams (darknet_ref false 3 1000) =
      Except.map initPolicySpec (darknet_ref false 3 1000) ∧
    Except.map initParams (darknet_tiny false 3 1000) =
      Except.map initPolicySpec (darknet_tiny false 3 1000) ∧
    Except.map initParams (darknet19 false 3 1000) =
      Except.map initPolicySpec (darknet19 false 3 1000) ∧
    Except.map (fun net => (net.namedConvs.filter fun p => p.2.bias).map
        Prod.fst) (darknet_ref false 3 1000) =
      Except.ok ["output.final_conv"] ∧
    Except.map (fun net => (net.namedConvs.filter fun p => p.2.bias).map
        Prod.fst) (darknet_tiny false 3 1000) =
      Except.ok ["output.final_conv"] ∧
    Except.map (fun net => (net.namedConvs.filter fun p => p.2.bias).map
        Prod.fst) (darknet19 false 3 1000) =
      Except.ok ["output.final_conv"] :=
  ⟨rfl, rfl, rfl, rfl, rfl, rfl⟩

/-- C8: for each of the three variants built with the defaults, the forward
pass on a `(3, 224, 224)` input flattens to a vector of length 1000 (so a
batch of one yields shape `(1, 1000)`), and the spatial extent left after
the feature stages equals the variant's `avg_pool_size` (3, 14 and 7), which
the head's average pool collapses to a single location. -/
theorem forward_shape_224 :
    Except.map (fun net =>
        (net.forwardFlatSize { channels := 3, height := 224, width := 224 },
          (net.featuresShape { channels := 3, height := 224, width := 224 }).map
            (fun s => (s.height, s.width)),
          net.final_pool_size))
      (darknet_ref false 3 1000) = Except.ok (some 1000, some (3, 3), 3) ∧
    Except.map (fun net =>
        (net.forwardFlatSize { channels := 3, height := 224, width := 224 },
          (net.featuresShape { channels := 3, height := 224, width := 224 }).map
            (fun s => (s.height, s.width)),
          net.final_pool_size))
      (darknet_tiny false 3 1000) = Except.ok (some 1000, some (14, 14), 14) ∧
    Except.map (fun net =>
        (net.forwardFlatSize { channels := 3, height := 224, width := 224 },
          (net.featuresShape { channels := 3, height := 224, width := 224 }).map
            (fun s => (s.height, s.width)),
          net.final_pool_size))
      (darknet19 false 3 1000) = Except.ok (some 1000, some (7, 7), 7) :=
  ⟨rfl, rfl, rfl⟩

/-- C9: when the version name is unrecognized, `get_darknet` raises the
unsupported-version error even with `pretrained = true`: the version
dispatch precedes the pretrained check. -/
theorem unknown_version_error_precedes_pretrained (version : String)
    (in_channels num_classes : Nat)
    (h : version ≠ "ref" ∧ version ≠ "tiny" ∧ version ≠ "19") :
    get_darknet version true in_channels num_classes =
      Except.error ("Unsupported DarkNet version " ++ version) := by
  simp [get_darknet, darknetVersionCfg, h.1, h.2.1, h.2.2]

/-- C9, witness at the unknown version `bogus` with `pretrained = true`. -/
theorem unknown_version_error_precedes_pretrained_witness :
    get_darknet "bogus" true 3 1000 =
      Except.error ("Unsupported DarkNet version " ++ "bogus") :=
  unknown_version_error_precedes_pretrained "bogus" 3 1000 (by decide)

/-- C10: `DarkNet.init` performs no configuration validation: for every
channels table, `odd_pointwise` flag, `avg_pool_size`, `cls_activ` flag,
`in_channels` and `num_classes` it completes and returns the fully
assembled structure (one stage per channel list, the given head
configuration); in particular a mismatched `avg_pool_size` (here 999 against
a 224x224 feature map) is accepted at construction time and only the forward
pass fails on it. -/
theorem init_no_validation :
    (∀ (channels : List (List Nat)) (odd_pointwise : Bool)
        (avg_pool_size : Nat) (cls_activ : Bool) (in_channels num_classes : Nat),
      (DarkNet.init channels odd_pointwise avg_pool_size cls_activ in_channels
          num_classes).stages.length = channels.length ∧
      (DarkNet.init channels odd_pointwise avg_pool_size cls_activ in_channels
          num_classes).final_pool_size = avg_pool_size ∧
      (DarkNet.init channels odd_pointwise avg_pool_size cls_activ in_channels
          num_classes).final_activ = cls_activ ∧
      (DarkNet.init channels odd_pointwise avg_pool_size cls_activ in_channels
          num_classes).final_conv.out_channels = num_classes) ∧
    ((DarkNet.init [[16]] false 999 true 3 1000).stages.length = 1 ∧
      (DarkNet.init [[16]] false 999 true 3 1000).forwardFlatSize
        { channels := 3, height := 224, width := 224 } = none) := by
  constructor
  · intro channels odd_pointwise avg_pool_size cls_activ in_channels num_classes
    exact ⟨featuresAux_length odd_pointwise channels.length channels 0
      in_channels, rfl, rfl, rfl⟩
  · exact ⟨rfl, rfl⟩

end DarknetModel
